import Mathlib

/-!
Shallow embedding of the FlexTraff adaptive traffic-timing engine
(`app/services/traffic_calculator.py`) and proofs about it.

Conventions of the embedding:
* Python ints are modelled as `ℤ`, Python floats as `ℚ` (the values that
  arise are exact decimals well within double precision, and no claim under
  study sits on a floating-point rounding boundary).
* Rational arithmetic is written with the helpers `qAdd`, `qSub`, `qMul`,
  `qDiv`, `qSum`, which are proved equal to the ordinary `ℚ` operations
  (`qAdd_eq` …). They exist only because the library marks `Rat.add` and
  friends irreducible, which would block kernel evaluation of concrete
  inputs; semantically the pipeline below is ordinary exact arithmetic.
* The fallible `calculate_green_times` is modelled in `Except String`;
  the two `ValueError`s keep their Python messages, and a division whose
  divisor is zero is modelled as the error `"ZeroDivisionError"`.
* Python `round` is round-half-to-even (`pyRound`).
* The `while True` redistribution loop of Step 4 is modelled with fuel 10;
  for every state the loop can actually reach (positive values whose sum is
  at most the green cycle budget) it stabilises within three iterations, so
  the fuel is never exhausted on inputs that pass validation.
-/

namespace FlexTraff

/-- Addition on `ℚ` written out on numerators and denominators so that the
kernel can evaluate it; `qAdd_eq` identifies it with `+`. -/
def qAdd (a b : ℚ) : ℚ := mkRat (a.num * b.den + b.num * a.den) (a.den * b.den)

/-- Subtraction on `ℚ` written out on numerators and denominators; `qSub_eq`
identifies it with `-`. -/
def qSub (a b : ℚ) : ℚ := mkRat (a.num * b.den - b.num * a.den) (a.den * b.den)

/-- Multiplication on `ℚ` written out on numerators and denominators;
`qMul_eq` identifies it with `*`. -/
def qMul (a b : ℚ) : ℚ := mkRat (a.num * b.num) (a.den * b.den)

/-- Division on `ℚ` written out on numerators and denominators; `qDiv_eq`
identifies it with `/`. -/
def qDiv (a b : ℚ) : ℚ := Rat.divInt (a.num * b.den) (a.den * b.num)

/-- Sum of a list of rationals via `qAdd`; `qSum_eq` identifies it with
`List.sum`. -/
def qSum (l : List ℚ) : ℚ := l.foldr qAdd 0

theorem qAdd_eq (a b : ℚ) : qAdd a b = a + b := (Rat.add_def' a b).symm

theorem qSub_eq (a b : ℚ) : qSub a b = a - b := (Rat.sub_def' a b).symm

theorem qMul_eq (a b : ℚ) : qMul a b = a * b := by
  rw [Rat.mul_def, Rat.normalize_eq_mkRat, qMul]

theorem qDiv_eq (a b : ℚ) : qDiv a b = a / b := by
  by_cases hb : b.num = 0
  · have hb0 : b = 0 := by rwa [Rat.num_eq_zero] at hb
    simp [qDiv, hb0, hb]
  · have ha : (a.den : ℤ) ≠ 0 := Int.ofNat_ne_zero.2 a.den_nz
    rw [qDiv, ← Rat.divInt_mul_divInt _ _ ha hb, Rat.divInt_self, ← Rat.inv_def,
      ← Rat.div_def]

theorem qSum_eq (l : List ℚ) : qSum l = l.sum := by
  induction l with
  | nil => rfl
  | cons x xs ih => simp [qSum, List.foldr, qAdd_eq, ih.symm]

/-- Fixed 5 seconds of yellow per lane (class constant `YELLOW_LIGHT_TIME`). -/
def YELLOW_LIGHT_TIME : ℤ := 5

/-- Configuration held by a `TrafficCalculator` instance. -/
structure TrafficCalculator where
  min_time : ℤ
  max_time : ℤ
  base_cycle_time : ℤ

/-- The default construction `TrafficCalculator()`: min 15, max 90, base 120. -/
def defaultCalc : TrafficCalculator :=
  { min_time := 15, max_time := 90, base_cycle_time := 120 }

/-- A lane is adjustable when its demand exceeds `min_time` (Step 2's `else`
branch); otherwise it is fixed. -/
def isAdjustable (c : TrafficCalculator) (count : ℤ) : Bool :=
  decide (c.min_time < count)

/-- Step 1 of `calculate_green_times`: the green-phase cycle time derived from
total demand. Python's `//` is floor division; the dividend `total - 100` is
positive in the branch where it is used, so `ℤ` division agrees with it. -/
def green_cycle_of (c : TrafficCalculator) (total : ℤ) : ℤ :=
  if total ≤ 100 then c.base_cycle_time
  else min (c.base_cycle_time + ((total - 100) / 10) * 10) 180

/-- Step 2 of `calculate_green_times`: the raw per-lane green times
(`green_times_raw`). Fixed lanes get `min_time`; an adjustable lane gets
`min_time + ((count - min_time) / total_cars) * rem_time` where
`rem_time = green_cycle_time - min_time * 4` (integer arithmetic in the
source, cast into the float expression). -/
def rawTimes (c : TrafficCalculator) (lane_counts : List ℤ) (G : ℤ) : List ℚ :=
  let total : ℤ := lane_counts.sum
  let rem_time : ℤ := G - c.min_time * 4
  lane_counts.map (fun count =>
    if count ≤ c.min_time then (c.min_time : ℚ)
    else qAdd (c.min_time : ℚ)
      (qMul (qDiv ((count - c.min_time : ℤ) : ℚ) ((total : ℤ) : ℚ)) ((rem_time : ℤ) : ℚ)))

/-- Step 3's `fixed_sum`: the raw times summed over the fixed lanes. -/
def fixedRawSum (c : TrafficCalculator) (lane_counts : List ℤ) (G : ℤ) : ℚ :=
  qSum (((lane_counts.zip (rawTimes c lane_counts G)).filter
      (fun p => ! isAdjustable c p.1)).map Prod.snd)

/-- Step 3's `adjustable_raw_sum`: the raw times summed over the adjustable
lanes. -/
def adjustableRawSum (c : TrafficCalculator) (lane_counts : List ℤ) (G : ℤ) : ℚ :=
  qSum (((lane_counts.zip (rawTimes c lane_counts G)).filter
      (fun p => isAdjustable c p.1)).map Prod.snd)

/-- Step 3 of `calculate_green_times`: when `adjustable_raw_sum > 0`, each
adjustable lane's raw time is rescaled by
`adjustable_cycle_time = green_cycle_time - fixed_sum` over the raw sum. -/
def proportionalAlloc (c : TrafficCalculator) (lane_counts : List ℤ) (G : ℤ) : List ℚ :=
  let raw := rawTimes c lane_counts G
  let adjustable_cycle_time : ℚ := qSub (G : ℚ) (fixedRawSum c lane_counts G)
  if 0 < adjustableRawSum c lane_counts G then
    (lane_counts.zip raw).map (fun p =>
      if isAdjustable c p.1 then
        qMul (qDiv p.2 (adjustableRawSum c lane_counts G)) adjustable_cycle_time
      else p.2)
  else raw

/-- Step 4 of `calculate_green_times`: the `while True` capping loop, on
(count, green) pairs. Each round caps every adjustable lane above `max_time`,
and if the accumulated excess is positive and some adjustable lane is still at
or below `max_time`, shares the excess equally among those lanes and repeats;
otherwise it stops with the caps applied. The source loop is unbounded; fuel
10 is ample for every reachable state (see the file header). -/
def enforceMax (c : TrafficCalculator) : ℕ → List (ℤ × ℚ) → List (ℤ × ℚ)
  | 0, pairs => pairs
  | (fuel + 1), pairs =>
    let over : ℤ × ℚ → Bool := fun p => isAdjustable c p.1 && decide ((c.max_time : ℚ) < p.2)
    let under : ℤ × ℚ → Bool := fun p => isAdjustable c p.1 && decide (p.2 ≤ (c.max_time : ℚ))
    let excess : ℚ := qSum ((pairs.filter over).map (fun p => qSub p.2 (c.max_time : ℚ)))
    let nUnder : ℕ := (pairs.filter under).length
    if 0 < excess ∧ 0 < nUnder then
      enforceMax c fuel (pairs.map (fun p =>
        if over p then (p.1, (c.max_time : ℚ))
        else if under p then (p.1, qAdd p.2 (qDiv excess ((nUnder : ℤ) : ℚ)))
        else p))
    else
      pairs.map (fun p => if over p then (p.1, (c.max_time : ℚ)) else p)

/-- Python's `round`: round half to even. `q.floor` is the floor; `r` is the
numerator of the fractional part over the (positive) denominator, so the
three branches compare the fractional part with one half. -/
def pyRound (q : ℚ) : ℤ :=
  let f : ℤ := q.floor
  let r : ℤ := q.num - f * (q.den : ℤ)
  if 2 * r < (q.den : ℤ) then f
  else if (q.den : ℤ) < 2 * r then f + 1
  else if f % 2 = 0 then f else f + 1

/-- Adds `d` to the last element of a list (Python `xs[-1] += d`). -/
def addToLast (d : ℤ) : List ℤ → List ℤ
  | [] => []
  | [x] => [x + d]
  | x :: y :: xs => x :: addToLast d (y :: xs)

/-- Step 5 of `calculate_green_times`: round every green time, then add the
whole discrepancy `green_cycle_time - sum` to the last lane. -/
def balanceRound (G : ℤ) (greens : List ℚ) : List ℤ :=
  let r := greens.map pyRound
  addToLast (G - r.sum) r

/-- The rounded green times just before the Step 5 balancing
(`green_times_rounded` as first assigned on line 125 of the source). -/
def roundedPre (c : TrafficCalculator) (lane_counts : List ℤ) : List ℤ :=
  let G := green_cycle_of c lane_counts.sum
  ((enforceMax c 10 (lane_counts.zip (proportionalAlloc c lane_counts G))).map
    Prod.snd).map pyRound

/-- The full `calculate_green_times`: validation, Steps 1–5, and the returned
pair `(green_times_rounded, green cycle + 20s yellow overhead)`. The zero
divisor of line 92 (possible only when an adjustable lane exists while the
total count is zero) is modelled as `"ZeroDivisionError"`. -/
def TrafficCalculator.calculate_green_times (c : TrafficCalculator)
    (lane_counts : List ℤ) : Except String (List ℤ × ℤ) :=
  if lane_counts.length ≠ 4 then
    .error "Lane counts must contain exactly 4 values"
  else if lane_counts.any (fun x => x < 0) then
    .error "Lane counts cannot be negative"
  else if lane_counts.sum = 0 ∧ lane_counts.any (fun x => isAdjustable c x) then
    .error "ZeroDivisionError"
  else
    let total_cars := lane_counts.sum
    let total_yellow_time : ℤ := 4 * YELLOW_LIGHT_TIME
    let G := green_cycle_of c total_cars
    let pairs := enforceMax c 10 (lane_counts.zip (proportionalAlloc c lane_counts G))
    .ok (balanceRound G (pairs.map Prod.snd), G + total_yellow_time)

/-- The offline/fallback timing `get_fallback_times`: every lane gets
`max_time`, and the cycle is their sum plus the yellow overhead. -/
def TrafficCalculator.get_fallback_times (c : TrafficCalculator) : List ℤ × ℤ :=
  let green_times := List.replicate 4 c.max_time
  (green_times, green_times.sum + 4 * YELLOW_LIGHT_TIME)

/-- The wrapper `calculate_green_times_with_fallback`: fallback when forced
offline, when the demand is `None` or empty, or when the inner computation
raises; otherwise it forwards the computed result. -/
def TrafficCalculator.calculate_green_times_with_fallback (c : TrafficCalculator)
    (lane_counts : Option (List ℤ)) (is_offline : Bool) : List ℤ × ℤ × Bool :=
  match lane_counts, is_offline with
  | none, _ => (c.get_fallback_times.1, c.get_fallback_times.2, true)
  | some _, true => (c.get_fallback_times.1, c.get_fallback_times.2, true)
  | some lc, false =>
    if lc.length = 0 then
      (c.get_fallback_times.1, c.get_fallback_times.2, true)
    else
      match c.calculate_green_times lc with
      | .ok (g, ct) => (g, ct, false)
      | .error _ => (c.get_fallback_times.1, c.get_fallback_times.2, true)

/-- The validator `validate_calculation`: bounds, sum-equals-green-cycle, and
the index-ordered pairwise proportionality check (the inner Python loop runs
`j` from `i + 1`, written here as the guard `i < j`). Indexing is `getD 0`,
meaningful when the two lists have the length used for the ranges. -/
def TrafficCalculator.validate_calculation (c : TrafficCalculator)
    (lane_counts green_times : List ℤ) (cycle_time : ℤ) : Bool :=
  if green_times.any (fun t => t < c.min_time || c.max_time < t) then false
  else
    let total_yellow : ℤ := (lane_counts.length : ℤ) * YELLOW_LIGHT_TIME
    let green_cycle := cycle_time - total_yellow
    if green_times.sum ≠ green_cycle then false
    else
      let n := lane_counts.length
      (List.range n).all (fun i => (List.range n).all (fun j =>
        ! (decide (i < j) && decide (lane_counts.getD j 0 < lane_counts.getD i 0)
           && decide (green_times.getD i 0 < green_times.getD j 0)
           && decide ((2 : ℤ) < green_times.getD j 0 - green_times.getD i 0))))

/-- The final green-times list of a successful `calculate_green_times` call
(Steps 1–5 composed), named for use in theorem statements. -/
def greensFinal (c : TrafficCalculator) (lane_counts : List ℤ) : List ℤ :=
  let G := green_cycle_of c lane_counts.sum
  balanceRound G
    ((enforceMax c 10 (lane_counts.zip (proportionalAlloc c lane_counts G))).map Prod.snd)

/-- The Proportional Allocator exactly as §4.2 of the spec words it, kept for
comparison against the code's `proportionalAlloc`: adjustable lanes share
`remaining = CycleBudget − fixedCount×minTime − adjustableCount×minTime`,
each receiving `minTime + remaining × (demand_i / Σ adjustable demand)`. -/
def specProportionalAlloc (c : TrafficCalculator) (lane_counts : List ℤ) (G : ℤ) : List ℚ :=
  let adjDemand : ℤ := (lane_counts.filter (fun d => c.min_time < d)).sum
  let fixedCount : ℤ := ((lane_counts.filter (fun d => d ≤ c.min_time)).length : ℤ)
  let adjCount : ℤ := ((lane_counts.filter (fun d => c.min_time < d)).length : ℤ)
  let remaining : ℤ := G - fixedCount * c.min_time - adjCount * c.min_time
  lane_counts.map (fun d =>
    if c.min_time < d then
      qAdd (c.min_time : ℚ) (qMul ((remaining : ℤ) : ℚ) (qDiv ((d : ℤ) : ℚ) ((adjDemand : ℤ) : ℚ)))
    else (c.min_time : ℚ))

/-- First index in `range n` that is eligible and has a strictly greatest
score (earliest index wins ties). -/
def bestIdx (score : ℕ → ℤ) (elig : ℕ → Bool) (n : ℕ) : Option ℕ :=
  ((List.range n).filter elig).foldl (fun acc i =>
    match acc with
    | none => some i
    | some j => if score j < score i then some i else some j) none

/-- One second added by the spec's §4.4 demand-aware balancer: among lanes
below `maxTime`, the one maximizing `demand_i × (1 − allocation_i/maxTime)`
receives it. The score is stated as the integer `demand_i × (maxTime −
allocation_i)`, the spec's priority scaled by the positive constant
`maxTime`, which preserves the argmax. -/
def specAddOne (c : TrafficCalculator) (lane_counts r : List ℤ) : List ℤ :=
  match bestIdx (fun i => lane_counts.getD i 0 * (c.max_time - r.getD i 0))
      (fun i => decide (r.getD i 0 < c.max_time)) r.length with
  | some i => r.set i (r.getD i 0 + 1)
  | none => r

/-- One second removed by the spec's §4.4 balancer: among lanes above
`minTime`, the one with lowest `demand_i + allocation_i` loses it (stated as
maximizing the negated score). -/
def specRemoveOne (c : TrafficCalculator) (lane_counts r : List ℤ) : List ℤ :=
  match bestIdx (fun i => -(lane_counts.getD i 0 + r.getD i 0))
      (fun i => decide (c.min_time < r.getD i 0)) r.length with
  | some i => r.set i (r.getD i 0 - 1)
  | none => r

/-- Iterates a repair step `n` times. -/
def stepN (f : List ℤ → List ℤ) : ℕ → List ℤ → List ℤ
  | 0, r => r
  | (n + 1), r => stepN f n (f r)

/-- The Rounding Balancer exactly as §4.4 of the spec words it: starting from
the rounded list `r`, repair `diff = CycleBudget − Σ r` one second at a time
with the demand-aware priority selection. -/
def specRoundingBalancer (c : TrafficCalculator) (lane_counts : List ℤ) (G : ℤ)
    (r : List ℤ) : List ℤ :=
  let diff := G - r.sum
  if 0 < diff then stepN (specAddOne c lane_counts) diff.toNat r
  else stepN (specRemoveOne c lane_counts) (-diff).toNat r

/-! Basic structural lemmas about the pipeline. -/

theorem addToLast_sum (d : ℤ) (l : List ℤ) (h : l ≠ []) :
    (addToLast d l).sum = l.sum + d := by
  induction l with
  | nil => exact absurd rfl h
  | cons x xs ih =>
    cases xs with
    | nil => simp [addToLast]
    | cons y ys =>
      simp only [addToLast, List.sum_cons]
      rw [ih (by simp)]
      simp only [List.sum_cons]
      ring

theorem balanceRound_sum (G : ℤ) (greens : List ℚ) (h : greens ≠ []) :
    (balanceRound G greens).sum = G := by
  unfold balanceRound
  rw [addToLast_sum _ _ (by simpa using h)]
  ring

theorem rawTimes_length (c : TrafficCalculator) (lc : List ℤ) (G : ℤ) :
    (rawTimes c lc G).length = lc.length := by
  simp [rawTimes]

theorem proportionalAlloc_length (c : TrafficCalculator) (lc : List ℤ) (G : ℤ) :
    (proportionalAlloc c lc G).length = lc.length := by
  unfold proportionalAlloc
  split
  · simp [rawTimes_length]
  · exact rawTimes_length c lc G

theorem enforceMax_length (c : TrafficCalculator) (fuel : ℕ) (ps : List (ℤ × ℚ)) :
    (enforceMax c fuel ps).length = ps.length := by
  induction fuel generalizing ps with
  | zero => rfl
  | succ n ih =>
    simp only [enforceMax]
    split
    · rw [ih]; simp
    · simp

/-- On validated input (length 4, no negative counts) `calculate_green_times`
succeeds and returns the composed pipeline output together with the green
cycle plus the 20-second yellow overhead. -/
theorem calculate_green_times_ok (lc : List ℤ) (h4 : lc.length = 4)
    (hnn : ∀ x ∈ lc, 0 ≤ x) :
    defaultCalc.calculate_green_times lc =
      .ok (greensFinal defaultCalc lc, green_cycle_of defaultCalc lc.sum + 20) := by
  unfold TrafficCalculator.calculate_green_times
  rw [if_neg, if_neg, if_neg]
  · rfl
  · rintro ⟨hs, hadj⟩
    rw [List.any_eq_true] at hadj
    obtain ⟨x, hx, hadjx⟩ := hadj
    have hle : x ≤ lc.sum := List.single_le_sum hnn x hx
    rw [hs] at hle
    simp only [isAdjustable, decide_eq_true_eq, defaultCalc] at hadjx
    omega
  · simp only [List.any_eq_true, decide_eq_true_eq, not_exists, not_and, not_lt]
    intro x hx
    exact hnn x hx
  · simp [h4]

/-- The pipeline's final list always has length 4 on length-4 input. -/
theorem greensFinal_length (c : TrafficCalculator) (lc : List ℤ) (h4 : lc.length = 4) :
    (greensFinal c lc).length = 4 := by
  have hz : (lc.zip (proportionalAlloc c lc (green_cycle_of c lc.sum))).length = 4 := by
    simp [List.length_zip, proportionalAlloc_length, h4]
  unfold greensFinal balanceRound
  have hlen : ∀ (d : ℤ) (l : List ℤ), (addToLast d l).length = l.length := by
    intro d l
    induction l with
    | nil => rfl
    | cons x xs ih =>
      cases xs with
      | nil => rfl
      | cons y ys => simpa [addToLast] using ih
  rw [hlen]
  simp [enforceMax_length, hz]

/-- On length-4 input the final green times sum exactly to the green cycle
budget: Step 5 adds the whole discrepancy to the last lane. -/
theorem greensFinal_sum (c : TrafficCalculator) (lc : List ℤ) (h4 : lc.length = 4) :
    (greensFinal c lc).sum = green_cycle_of c lc.sum := by
  unfold greensFinal
  apply balanceRound_sum
  have hlen : ((enforceMax c 10
      (lc.zip (proportionalAlloc c lc (green_cycle_of c lc.sum)))).map Prod.snd).length = 4 := by
    simp [enforceMax_length, List.length_zip, proportionalAlloc_length, h4]
  intro hnil
  rw [hnil] at hlen
  simp at hlen

/-! Claim theorems. -/

/-- C1: false of the code — on demand `[0,0,0,1000]` the fourth returned
green time is 135, strictly above `max_time = 90`: the Step 5 balancing adds
the whole 45-second shortfall to the last lane after capping, and no
budget-shrinking repair exists. -/
theorem C1_lane_exceeds_max :
    defaultCalc.calculate_green_times [0, 0, 0, 1000] = .ok ([15, 15, 15, 135], 200) ∧
    ¬ ((135 : ℤ) ≤ defaultCalc.max_time) :=
  ⟨rfl, by decide⟩

/-- C2 (counterexample): the four returned green times do not sum to the
cycle value returned alongside them — on `[25,22,28,24]` the greens sum to
120 while the returned cycle is 140 (it includes the 20s yellow overhead). -/
theorem C2_sum_ne_returned_cycle :
    defaultCalc.calculate_green_times [25, 22, 28, 24] = .ok ([30, 28, 33, 29], 140) ∧
    ([30, 28, 33, 29] : List ℤ).sum ≠ 140 :=
  ⟨rfl, by decide⟩

/-- C2 (amended): for every demand vector of exactly 4 non-negative integers
the returned green times sum exactly to the green cycle budget (no drift),
and the cycle value returned alongside is that budget plus the 20-second
yellow overhead, not the budget itself. -/
theorem C2_sum_eq_green_budget (lc : List ℤ) (h4 : lc.length = 4)
    (hnn : ∀ x ∈ lc, 0 ≤ x) :
    defaultCalc.calculate_green_times lc =
      .ok (greensFinal defaultCalc lc, green_cycle_of defaultCalc lc.sum + 20) ∧
    (greensFinal defaultCalc lc).sum = green_cycle_of defaultCalc lc.sum :=
  ⟨calculate_green_times_ok lc h4 hnn, greensFinal_sum defaultCalc lc h4⟩

/-- C2 witness: the amended claim instantiated at `[25,22,28,24]`. -/
theorem C2_witness : (greensFinal defaultCalc [25, 22, 28, 24]).sum = 120 := by
  have h := C2_sum_eq_green_budget [25, 22, 28, 24] (by decide) (by decide)
  exact h.2.trans (by decide)

/-- C3: false of the code — on the all-light demand `[8,12,6,10]` there is no
minimal-cycle bypass: the green cycle budget stays 120 (returned 140 with
yellow) and the whole 60-second surplus lands on lane 4, so the allocation is
`[15,15,15,75]`, not `[15,15,15,15]` with budget 60. -/
theorem C3_no_minimal_demand_bypass :
    defaultCalc.calculate_green_times [8, 12, 6, 10] = .ok ([15, 15, 15, 75], 140) ∧
    ([15, 15, 15, 75] : List ℤ) ≠ List.replicate 4 defaultCalc.min_time :=
  ⟨rfl, by decide⟩

/-- C4: false of the code — at total demand 101 the source computes
`increments = (101 - 100) // 10 = 0` (floor, not ceiling), so the green cycle
budget is 120 and the call returns cycle 140, not the claimed 130. -/
theorem C4_floor_not_ceil_increments :
    green_cycle_of defaultCalc 101 = 120 ∧
    defaultCalc.calculate_green_times [26, 25, 25, 25] = .ok ([31, 30, 30, 29], 120 + 20) ∧
    (120 : ℤ) ≠ min (defaultCalc.base_cycle_time + 10 * ((101 - 100 + 9) / 10)) 180 :=
  ⟨rfl, rfl, by decide⟩

/-- C10: for every demand vector of exactly 4 non-negative integers the
returned cycle value equals the sum of the returned green times plus the
fixed `4 × 5 = 20` seconds of yellow overhead. -/
theorem C10_cycle_eq_green_sum_plus_yellow (lc : List ℤ) (h4 : lc.length = 4)
    (hnn : ∀ x ∈ lc, 0 ≤ x) (g : List ℤ) (ct : ℤ)
    (h : defaultCalc.calculate_green_times lc = .ok (g, ct)) :
    ct = g.sum + 4 * YELLOW_LIGHT_TIME := by
  rw [calculate_green_times_ok lc h4 hnn] at h
  have hg : greensFinal defaultCalc lc = g ∧ green_cycle_of defaultCalc lc.sum + 20 = ct := by
    injection h with h1
    exact ⟨congrArg Prod.fst h1, congrArg Prod.snd h1⟩
  rw [← hg.1, ← hg.2, greensFinal_sum defaultCalc lc h4]
  norm_num [YELLOW_LIGHT_TIME]

/-- C10 witness: the claim instantiated at `[30,30,30,30]`, where the call
returns greens `[35,35,35,35]` and cycle `160 = 140 + 20`. -/
theorem C10_witness : (160 : ℤ) = ([35, 35, 35, 35] : List ℤ).sum + 4 * YELLOW_LIGHT_TIME :=
  C10_cycle_eq_green_sum_plus_yellow [30, 30, 30, 30] (by decide) (by decide)
    [35, 35, 35, 35] 160 rfl

/-- C7: `calculate_green_times_with_fallback` is total, and whenever it is
forced offline, or handed a missing or empty demand list, or the inner
computation errors, it returns the constant fallback `[90,90,90,90]` with
cycle 380 and the fallback flag set. -/
theorem C7_fallback_returns_max_times (lane_counts : Option (List ℤ)) (is_offline : Bool)
    (h : is_offline = true ∨ lane_counts = none ∨ lane_counts = some [] ∨
      ∃ l e, lane_counts = some l ∧ defaultCalc.calculate_green_times l = .error e) :
    defaultCalc.calculate_green_times_with_fallback lane_counts is_offline =
      ([90, 90, 90, 90], 380, true) := by
  rcases lane_counts with _ | lc
  · rfl
  · cases is_offline with
    | true => rfl
    | false =>
      rcases h with h | h | h | ⟨l, e, hl, he⟩
      · exact absurd h (by simp)
      · exact absurd h (by simp)
      · injection h with h
        subst h
        rfl
      · injection hl with hl
        subst hl
        unfold TrafficCalculator.calculate_green_times_with_fallback
        dsimp only
        by_cases hemp : lc.length = 0
        · rw [if_pos hemp]
          rfl
        · rw [if_neg hemp, he]
          rfl

/-- C7 witness: a `None` demand with the offline flag unset always produces
the fallback allocation and `usedFallback = true`. -/
theorem C7_witness :
    defaultCalc.calculate_green_times_with_fallback none false = ([90, 90, 90, 90], 380, true) :=
  C7_fallback_returns_max_times none false (Or.inr (Or.inl rfl))

/-- C8: `calculate_green_times` errors exactly on inputs whose length is not
4 or that contain a negative count, and the only errors it ever produces are
the two `ValueError` messages (in particular, the modelled division by zero
never fires: an adjustable lane forces a positive total). -/
theorem C8_error_iff_invalid_input (lc : List ℤ) :
    ((∃ e, defaultCalc.calculate_green_times lc = .error e) ↔
      (lc.length ≠ 4 ∨ ∃ x ∈ lc, x < 0)) ∧
    (∀ e, defaultCalc.calculate_green_times lc = .error e →
      e = "Lane counts must contain exactly 4 values" ∨
      e = "Lane counts cannot be negative") := by
  by_cases h4 : lc.length = 4
  · by_cases hneg : ∃ x ∈ lc, x < 0
    · have hcalc : defaultCalc.calculate_green_times lc = .error "Lane counts cannot be negative" := by
        unfold TrafficCalculator.calculate_green_times
        rw [if_neg (by simp [h4]), if_pos]
        rw [List.any_eq_true]
        obtain ⟨x, hx, hxlt⟩ := hneg
        exact ⟨x, hx, by simpa using hxlt⟩
      rw [hcalc]
      constructor
      · exact ⟨fun _ => Or.inr hneg, fun _ => ⟨_, rfl⟩⟩
      · intro e he
        injection he with he
        exact Or.inr he.symm
    · have hnn : ∀ x ∈ lc, 0 ≤ x := by
        intro x hx
        by_contra hlt
        exact hneg ⟨x, hx, by omega⟩
      have hcalc := calculate_green_times_ok lc h4 hnn
      rw [hcalc]
      constructor
      · constructor
        · rintro ⟨e, he⟩
          exact absurd he (by simp)
        · rintro (h | h)
          · exact absurd h4 h
          · exact absurd h hneg
      · intro e he
        exact absurd he (by simp)
  · have hcalc : defaultCalc.calculate_green_times lc =
        .error "Lane counts must contain exactly 4 values" := by
      unfold TrafficCalculator.calculate_green_times
      rw [if_pos h4]
    rw [hcalc]
    constructor
    · exact ⟨fun _ => Or.inl h4, fun _ => ⟨_, rfl⟩⟩
    · intro e he
      injection he with he
      exact Or.inl he.symm

/-- C8 witness: a 3-element demand list is rejected. -/
theorem C8_witness : ∃ e, defaultCalc.calculate_green_times [10, 20, 30] = .error e :=
  (C8_error_iff_invalid_input [10, 20, 30]).1.mpr (Or.inl (by decide))

theorem exists_four {α : Type} {l : List α} (h : l.length = 4) :
    ∃ a b c d, l = [a, b, c, d] := by
  obtain _ | ⟨a, l⟩ := l
  · simp at h
  obtain _ | ⟨b, l⟩ := l
  · simp at h
  obtain _ | ⟨c, l⟩ := l
  · simp at h
  obtain _ | ⟨d, l⟩ := l
  · simp at h
  obtain _ | ⟨e, l⟩ := l
  · exact ⟨a, b, c, d, rfl⟩
  · simp at h

theorem roundedPre_length (c : TrafficCalculator) (lc : List ℤ) (h4 : lc.length = 4) :
    (roundedPre c lc).length = 4 := by
  simp [roundedPre, enforceMax_length, List.length_zip, proportionalAlloc_length, h4]

set_option maxRecDepth 4000 in
/-- C5 (counterexample): on `[8,12,6,10]` the rounded times are
`[15,15,15,15]` with a 60-second shortfall, and the code returns
`[15,15,15,75]`; the spec's demand-aware one-second-at-a-time balancer run
from the same state produces a different list, so the code does not repair
the difference that way. -/
theorem C5_not_priority_balancer :
    defaultCalc.calculate_green_times [8, 12, 6, 10] = .ok ([15, 15, 15, 75], 140) ∧
    roundedPre defaultCalc [8, 12, 6, 10] = [15, 15, 15, 15] ∧
    specRoundingBalancer defaultCalc [8, 12, 6, 10]
        (green_cycle_of defaultCalc ([8, 12, 6, 10] : List ℤ).sum) [15, 15, 15, 15] ≠
      [15, 15, 15, 75] :=
  ⟨rfl, rfl, by decide⟩

/-- C5 (amended): the rounding discrepancy is repaired in a single step on
one fixed position — the first three returned green times are exactly the
rounded values, and the last one is its rounded value plus the entire
difference `budget − Σ rounded`, regardless of demand. -/
theorem C5_diff_dumped_on_last_lane (lc : List ℤ) (h4 : lc.length = 4)
    (hnn : ∀ x ∈ lc, 0 ≤ x) (g : List ℤ) (ct : ℤ)
    (h : defaultCalc.calculate_green_times lc = .ok (g, ct)) :
    (∀ i, i < 3 → g.getD i 0 = (roundedPre defaultCalc lc).getD i 0) ∧
    g.getD 3 0 = (roundedPre defaultCalc lc).getD 3 0 +
      (green_cycle_of defaultCalc lc.sum - (roundedPre defaultCalc lc).sum) := by
  rw [calculate_green_times_ok lc h4 hnn] at h
  injection h with h1
  have hg : greensFinal defaultCalc lc = g := congrArg Prod.fst h1
  have hre : greensFinal defaultCalc lc =
      addToLast (green_cycle_of defaultCalc lc.sum - (roundedPre defaultCalc lc).sum)
        (roundedPre defaultCalc lc) := rfl
  obtain ⟨r0, r1, r2, r3, hr⟩ := exists_four (roundedPre_length defaultCalc lc h4)
  rw [← hg, hre, hr]
  refine ⟨fun i hi => ?_, ?_⟩
  · interval_cases i <;> simp [addToLast]
  · simp [addToLast, List.sum_cons]

/-- C5 witness: the amended claim instantiated at `[8,12,6,10]`, where the
last lane receives the whole 60-second difference. -/
theorem C5_witness :
    ([15, 15, 15, 75] : List ℤ).getD 3 0 =
      (roundedPre defaultCalc [8, 12, 6, 10]).getD 3 0 +
      (green_cycle_of defaultCalc ([8, 12, 6, 10] : List ℤ).sum -
        (roundedPre defaultCalc [8, 12, 6, 10]).sum) :=
  (C5_diff_dumped_on_last_lane [8, 12, 6, 10] (by decide) (by decide)
    [15, 15, 15, 75] 140 rfl).2

/-- C9 (counterexample): the validator accepts demands `[1,5,1,1]` with
allocation `[90,15,15,15]` and cycle 155, although lane 2's demand (5)
exceeds lane 1's (1) while its allocation 15 is far below 90 − 2: a pair in
reversed index order is never checked. -/
theorem C9_validator_misses_reversed_pair :
    defaultCalc.validate_calculation [1, 5, 1, 1] [90, 15, 15, 15] 155 = true ∧
    ([1, 5, 1, 1] : List ℤ).getD 0 0 < ([1, 5, 1, 1] : List ℤ).getD 1 0 ∧
    ([90, 15, 15, 15] : List ℤ).getD 1 0 < ([90, 15, 15, 15] : List ℤ).getD 0 0 - 2 :=
  ⟨rfl, by decide, by decide⟩

/-- C9 (amended): on 4-lane input the validator returns true exactly when the
bounds hold, the greens sum to the cycle minus the 20s yellow overhead, and
the order-preservation property holds for index-ordered pairs `i < j` only:
whenever `demand_i > demand_j`, `allocation_j − allocation_i ≤ 2`. The
reversed pairs (`i` after `j`) are not constrained. -/
theorem C9_validator_ordered_pairs_only (a b c d g0 g1 g2 g3 ct : ℤ) :
    defaultCalc.validate_calculation [a, b, c, d] [g0, g1, g2, g3] ct = true ↔
      ((15 ≤ g0 ∧ g0 ≤ 90) ∧ (15 ≤ g1 ∧ g1 ≤ 90) ∧ (15 ≤ g2 ∧ g2 ≤ 90) ∧
       (15 ≤ g3 ∧ g3 ≤ 90) ∧
       g0 + g1 + g2 + g3 = ct - 20 ∧
       (b < a → g1 - g0 ≤ 2) ∧ (c < a → g2 - g0 ≤ 2) ∧ (d < a → g3 - g0 ≤ 2) ∧
       (c < b → g2 - g1 ≤ 2) ∧ (d < b → g3 - g1 ≤ 2) ∧ (d < c → g3 - g2 ≤ 2)) := by
  simp only [TrafficCalculator.validate_calculation, defaultCalc, YELLOW_LIGHT_TIME,
    List.length_cons, List.length_nil, List.range_succ, List.range_zero]
  simp [List.any_cons, List.all_cons, decide_eq_true_eq]
  omega

/-- C9 witness: the amended characterisation instantiated on a monotone
configuration that the validator accepts. -/
theorem C9_witness :
    defaultCalc.validate_calculation [10, 20, 30, 40] [20, 25, 30, 45] 140 = true := by
  rw [C9_validator_ordered_pairs_only]
  norm_num

theorem zip_map_self {α β : Type} (f : α → β) (l : List α) :
    l.zip (l.map f) = l.map (fun v => (v, f v)) := by
  induction l with
  | nil => rfl
  | cons v vs ih => simp [ih]

/-- Step 3's `fixed_sum` is `min_time` times the number of fixed lanes, since
every fixed lane's raw time is exactly `min_time`. -/
theorem fixedRawSum_eq (c : TrafficCalculator) (lc : List ℤ) (G : ℤ) :
    fixedRawSum c lc G =
      ((lc.filter (fun d => d ≤ c.min_time)).length : ℚ) * (c.min_time : ℚ) := by
  unfold fixedRawSum rawTimes
  rw [qSum_eq, zip_map_self, List.filter_map, List.map_map]
  rw [List.filter_congr (q := fun d => d ≤ c.min_time) ?hpred]
  case hpred =>
    intro v _
    simp only [Function.comp, isAdjustable, Bool.not_eq_true', decide_eq_false_iff_not,
      not_lt, decide_eq_true_eq]
    rw [← decide_not, decide_eq_decide]
    omega
  have hmap : (List.filter (fun d => decide (d ≤ c.min_time)) lc).map
        (Prod.snd ∘ fun v => ((v : ℤ),
          if v ≤ c.min_time then (c.min_time : ℚ)
          else qAdd (c.min_time : ℚ) (qMul (qDiv ((v - c.min_time : ℤ) : ℚ) ((lc.sum : ℤ) : ℚ))
            ((G - c.min_time * 4 : ℤ) : ℚ)))) =
      (List.filter (fun d => decide (d ≤ c.min_time)) lc).map (fun _ => (c.min_time : ℚ)) :=
    List.map_eq_map_iff.mpr (fun v hv => by
      have hle := (List.mem_filter.mp hv).2
      simp only [Function.comp]
      rw [if_pos (by simpa using hle)])
  rw [hmap]
  simp [List.map_const', List.sum_replicate, nsmul_eq_mul]

/-- Step 3's `adjustable_raw_sum`, rewritten as a sum over the adjustable
lanes of their raw formula. -/
theorem adjustableRawSum_eq (c : TrafficCalculator) (lc : List ℤ) (G : ℤ) :
    adjustableRawSum c lc G =
      ((lc.filter (fun d => c.min_time < d)).map
        (fun v => qAdd (c.min_time : ℚ)
          (qMul (qDiv ((v - c.min_time : ℤ) : ℚ) ((lc.sum : ℤ) : ℚ))
            ((G - c.min_time * 4 : ℤ) : ℚ)))).sum := by
  unfold adjustableRawSum rawTimes
  rw [qSum_eq, zip_map_self, List.filter_map, List.map_map]
  rw [List.filter_congr (q := fun d => c.min_time < d) ?hpred]
  case hpred =>
    intro v _
    simp [Function.comp, isAdjustable]
  congr 1
  refine List.map_eq_map_iff.mpr (fun v hv => ?_)
  have hlt := (List.mem_filter.mp hv).2
  simp only [Function.comp]
  rw [if_neg (by simp at hlt; omega)]

/-- The default green cycle budget never goes below the 120-second base. -/
theorem green_cycle_default_ge (t : ℤ) : 120 ≤ green_cycle_of defaultCalc t := by
  unfold green_cycle_of
  split
  · simp [defaultCalc]
  · rename_i h
    simp only [defaultCalc, le_min_iff]
    constructor
    · have h10 : 0 ≤ (t - 100) / 10 := by omega
      omega
    · omega

/-- With non-negative demand and at least one adjustable lane, the adjustable
raw sum is positive (so Step 3's rescaling branch is taken). -/
theorem adjustableRawSum_pos (lc : List ℤ) (hnn : ∀ v ∈ lc, 0 ≤ v)
    (hadj : ∃ v ∈ lc, 15 < v) :
    0 < adjustableRawSum defaultCalc lc (green_cycle_of defaultCalc lc.sum) := by
  obtain ⟨v0, hv0mem, hv015⟩ := hadj
  have hT : (0 : ℤ) < lc.sum := by
    have := List.single_le_sum hnn v0 hv0mem
    omega
  have hG := green_cycle_default_ge lc.sum
  rw [adjustableRawSum_eq]
  apply List.sum_pos
  · intro q hq
    obtain ⟨v, hvf, rfl⟩ := List.mem_map.mp hq
    have hv15 : (15 : ℤ) < v := by
      have := (List.mem_filter.mp hvf).2
      simpa [defaultCalc] using this
    rw [qAdd_eq, qMul_eq, qDiv_eq]
    have h1 : (0 : ℚ) ≤ ((v - defaultCalc.min_time : ℤ) : ℚ) := by
      simp only [defaultCalc]
      exact_mod_cast (by omega : (0 : ℤ) ≤ v - 15)
    have h2 : (0 : ℚ) ≤ ((lc.sum : ℤ) : ℚ) := by exact_mod_cast hT.le
    have h3 : (0 : ℚ) ≤
        ((green_cycle_of defaultCalc lc.sum - defaultCalc.min_time * 4 : ℤ) : ℚ) := by
      simp only [defaultCalc]
      exact_mod_cast (by omega : (0 : ℤ) ≤ green_cycle_of defaultCalc lc.sum - 15 * 4)
    have hmin : (0 : ℚ) < (defaultCalc.min_time : ℚ) := by norm_num [defaultCalc]
    exact add_pos_of_pos_of_nonneg hmin (mul_nonneg (div_nonneg h1 h2) h3)
  · apply List.ne_nil_of_mem
    refine List.mem_map_of_mem _ (List.mem_filter.mpr ⟨hv0mem, ?_⟩)
    simp [defaultCalc]
    omega

/-- C6 (counterexample): on demand `[20,30,10,10]` with budget 120, the
code's proportional stage gives lane 1 the value `405/11` (about 36.8) while
the spec's formula `minTime + remaining × d₁/Σd` gives 39: the two stages
disagree. -/
theorem C6_not_spec_formula :
    green_cycle_of defaultCalc ([20, 30, 10, 10] : List ℤ).sum = 120 ∧
    (proportionalAlloc defaultCalc [20, 30, 10, 10] 120).getD 0 0 = mkRat 405 11 ∧
    (specProportionalAlloc defaultCalc [20, 30, 10, 10] 120).getD 0 0 = mkRat 39 1 ∧
    (proportionalAlloc defaultCalc [20, 30, 10, 10] 120).getD 0 0 ≠
      (specProportionalAlloc defaultCalc [20, 30, 10, 10] 120).getD 0 0 :=
  ⟨rfl, rfl, rfl, by decide⟩

/-- C6 (amended): in the proportional stage, a fixed lane (demand ≤ minTime)
receives exactly minTime, and an adjustable lane i receives
`raw_i / Σ adjustable raw × (Budget − minTime × fixedCount)`, where
`raw_i = minTime + (demand_i − minTime)/T × (Budget − 4·minTime)` is the raw
stage value — not `minTime + remaining × demand_i/Σ adjustable demand`. -/
theorem C6_code_proportional_formula (lc : List ℤ) (h4 : lc.length = 4)
    (hnn : ∀ v ∈ lc, 0 ≤ v) (hadj : ∃ v ∈ lc, 15 < v) (i : ℕ) (hi : i < 4) :
    (lc.getD i 0 ≤ 15 →
      (proportionalAlloc defaultCalc lc (green_cycle_of defaultCalc lc.sum)).getD i 0 = 15) ∧
    (15 < lc.getD i 0 →
      (proportionalAlloc defaultCalc lc (green_cycle_of defaultCalc lc.sum)).getD i 0 =
        ((rawTimes defaultCalc lc (green_cycle_of defaultCalc lc.sum)).getD i 0 /
            adjustableRawSum defaultCalc lc (green_cycle_of defaultCalc lc.sum)) *
          ((green_cycle_of defaultCalc lc.sum : ℚ) -
            ((lc.filter (fun d => d ≤ 15)).length : ℚ) * 15)) := by
  have hS := adjustableRawSum_pos lc hnn hadj
  obtain ⟨w, x, y, z, rfl⟩ := exists_four h4
  constructor
  · intro hle
    interval_cases i <;>
      simp_all [proportionalAlloc, rawTimes, isAdjustable, not_lt.mpr, hS, defaultCalc]
  · intro hlt
    interval_cases i <;>
      simp_all [proportionalAlloc, rawTimes, isAdjustable, hS, defaultCalc,
        fixedRawSum_eq, qMul_eq, qDiv_eq, qSub_eq, qAdd_eq]

/-- C6 witness: the amended formula instantiated at demand `[20,30,10,10]`,
lane 1 (adjustable). -/
theorem C6_witness :
    15 < ([20, 30, 10, 10] : List ℤ).getD 0 0 ∧
    (proportionalAlloc defaultCalc [20, 30, 10, 10]
        (green_cycle_of defaultCalc ([20, 30, 10, 10] : List ℤ).sum)).getD 0 0 =
      ((rawTimes defaultCalc [20, 30, 10, 10]
            (green_cycle_of defaultCalc ([20, 30, 10, 10] : List ℤ).sum)).getD 0 0 /
          adjustableRawSum defaultCalc [20, 30, 10, 10]
            (green_cycle_of defaultCalc ([20, 30, 10, 10] : List ℤ).sum)) *
        ((green_cycle_of defaultCalc ([20, 30, 10, 10] : List ℤ).sum : ℚ) -
          (([20, 30, 10, 10] : List ℤ).filter (fun d => d ≤ 15)).length * 15) :=
  ⟨by decide,
    (C6_code_proportional_formula [20, 30, 10, 10] (by decide) (by decide) ⟨20, by decide⟩
      0 (by decide)).2 (by decide)⟩

end FlexTraff
